import Mathlib

/-!
Shallow embedding of `src/app/routes.py`: a Flask blueprint `main` with two
view functions, `index` (for path "/") and `klassement` (for path
"/klassement"), each returning `render_template` of a fixed template name.
The hosting HTTP server's dispatch (Flask core) and the data-store module
(`app.models`) are not part of the fragment and are modelled from the spec
where a claim needs them.
-/

namespace Routes

/-- HTTP request methods. -/
inductive Method
  | GET
  | POST
  | PUT
  | DELETE
  | PATCH
  | HEAD
  | OPTIONS
deriving DecidableEq, Repr

/-- Failure of the Template Renderer, per the spec's error taxonomy:
`render` fails with `TemplateNotFound` when the page name has no matching
resource. -/
inductive TemplateError
  | templateNotFound (name : String)
deriving DecidableEq, Repr

/-- A template context mapping (variable name to value), as passed to the
Template Renderer. Both handlers in the source pass no context variables. -/
abbrev Context := List (String × String)

/-- The Template Renderer collaborator (`flask.render_template`): resolves a
template name and a context mapping to an HTML string, or fails. External to
the fragment, so kept abstract as a function parameter. -/
abbrev Renderer := String → Context → Except TemplateError String

/-- View function `index` from `src/app/routes.py`:
`return render_template('index.html')`. The module-level data-store handle
`db` is in scope but unused; state passing makes that explicit: the handler
returns the renderer's result for template `"index.html"` with an empty
context, and the data-store state unchanged. -/
def index {DB : Type} (render : Renderer) (db : DB) :
    Except TemplateError String × DB :=
  (render "index.html" [], db)

/-- View function `klassement` from `src/app/routes.py`:
`return render_template('klassement.html')`; same shape as `index`. -/
def klassement {DB : Type} (render : Renderer) (db : DB) :
    Except TemplateError String × DB :=
  (render "klassement.html" [], db)

/-- One registered route: the HTTP methods it accepts, its URL path, the view
function's name, and the view function itself. -/
structure Route (DB : Type) where
  methods : List Method
  path : String
  name : String
  handler : Renderer → DB → Except TemplateError String × DB

/-- The routing table of blueprint `main` in `src/app/routes.py`: the two
`@main.route` registrations, in source order. A bare `@main.route(path)`
decorator registers the route for GET. -/
def mainRoutes (DB : Type) : List (Route DB) :=
  [ ⟨[Method.GET], "/", "index", index⟩,
    ⟨[Method.GET], "/klassement", "klassement", klassement⟩ ]

/-- An incoming HTTP request: the two fields the router matches on (method
and path) and the request data the handlers never read (query string,
headers, body). -/
structure Request where
  method : Method
  path : String
  query : String
  headers : List (String × String)
  body : String

/-- An HTTP response as the spec describes it: a 200 with a body from a
successful handler, the server-owned not-found and method-not-allowed
responses, or a server error carrying a propagated template failure. -/
inductive Response
  | ok (body : String)
  | notFound
  | methodNotAllowed
  | serverError (e : TemplateError)
deriving DecidableEq, Repr

/-- The HTTP status code of a `Response`. -/
def Response.status : Response → Nat
  | Response.ok _ => 200
  | Response.notFound => 404
  | Response.methodNotAllowed => 405
  | Response.serverError _ => 500

/-- The body of a `Response` (empty for the server-owned error responses,
whose body is framework default text). -/
def Response.body : Response → String
  | Response.ok b => b
  | _ => ""

/-- Modelled from the spec: the hosting HTTP server's dispatch, which is not
part of this fragment (`src/app/routes.py` only registers routes). Per §4.1
and §7 of the spec: an unmatched path yields the server's not-found
response; a matched path with an unregistered method yields
method-not-allowed without invoking the handler; otherwise the handler runs,
a success becomes a 200 response with the rendered body, and a template
failure bubbles up unchanged as a server error. -/
def dispatch {DB : Type} (routes : List (Route DB)) (render : Renderer)
    (req : Request) (db : DB) : Response × DB :=
  match routes.find? (fun r => r.path == req.path) with
  | none => (Response.notFound, db)
  | some r =>
      if req.method ∈ r.methods then
        match r.handler render db with
        | (Except.ok html, db') => (Response.ok html, db')
        | (Except.error e, db') => (Response.serverError e, db')
      else (Response.methodNotAllowed, db)

/-- How many handlers the routing table registers for a given
(method, path) pair. -/
def routeCount {DB : Type} (routes : List (Route DB)) (m : Method)
    (p : String) : Nat :=
  (routes.filter (fun r => decide (m ∈ r.methods) && r.path == p)).length

end Routes

open Routes

/-- C1: for every GET request with path "/", if the Template Renderer
succeeds for the index page (template "index.html"), the handler succeeds:
the response is a 200 whose body equals the renderer's HTML output, and the
data-store state is untouched. The handler takes no inputs beyond the
implicit request. -/
theorem c1_index_renders {DB : Type} (render : Renderer) (req : Request)
    (db : DB) (html : String)
    (hm : req.method = Method.GET) (hp : req.path = "/")
    (hr : render "index.html" [] = Except.ok html) :
    dispatch (mainRoutes DB) render req db = (Response.ok html, db) := by
  obtain ⟨m, p, q, hd, b⟩ := req
  simp only at hm hp
  subst hm hp
  simp [dispatch, mainRoutes, index, hr, List.find?]

/-- C1 witness: a concrete renderer succeeding on "index.html" and a
concrete GET request to "/". -/
theorem c1_index_renders_witness :
    dispatch (mainRoutes Unit)
      (fun _ _ => Except.ok "<html>index</html>")
      ⟨Method.GET, "/", "", [], ""⟩ () = (Response.ok "<html>index</html>", ()) :=
  c1_index_renders (fun _ _ => Except.ok "<html>index</html>")
    ⟨Method.GET, "/", "", [], ""⟩ () "<html>index</html>" rfl rfl rfl

/-- C2: for every GET request with path "/klassement", if the Template
Renderer succeeds for the klassement page (template "klassement.html"), the
response status is 200 and the response body equals the renderer's HTML
output. -/
theorem c2_klassement_renders {DB : Type} (render : Renderer) (req : Request)
    (db : DB) (html : String)
    (hm : req.method = Method.GET) (hp : req.path = "/klassement")
    (hr : render "klassement.html" [] = Except.ok html) :
    (dispatch (mainRoutes DB) render req db).1.status = 200 ∧
    (dispatch (mainRoutes DB) render req db).1.body = html := by
  obtain ⟨m, p, q, hd, b⟩ := req
  simp only at hm hp
  subst hm hp
  simp [dispatch, mainRoutes, klassement, hr, List.find?, Response.status,
    Response.body]

/-- C2 witness: a concrete renderer succeeding on "klassement.html" and a
concrete GET request to "/klassement". -/
theorem c2_klassement_renders_witness :
    (dispatch (mainRoutes Unit) (fun _ _ => Except.ok "<p>stand</p>")
      ⟨Method.GET, "/klassement", "", [], ""⟩ ()).1.status = 200 ∧
    (dispatch (mainRoutes Unit) (fun _ _ => Except.ok "<p>stand</p>")
      ⟨Method.GET, "/klassement", "", [], ""⟩ ()).1.body = "<p>stand</p>" :=
  c2_klassement_renders (fun _ _ => Except.ok "<p>stand</p>")
    ⟨Method.GET, "/klassement", "", [], ""⟩ () "<p>stand</p>" rfl rfl rfl

/-- C3 counterexample: the routing table built by `src/app/routes.py` has no
(method, path) pair with more than one registered handler — in particular
there is no second registration of "/" and no handler returning the literal
text "Hello Flask!"; the source registers "/" exactly once, for the index
template render. -/
theorem c3_no_duplicate_registration :
    ¬ ∃ (m : Method) (p : String), 2 ≤ routeCount (mainRoutes Unit) m p := by
  rintro ⟨m, p, h⟩
  by_cases hp : p = "/"
  · subst hp; revert h; cases m <;> decide
  · by_cases hq : p = "/klassement"
    · subst hq; revert h; cases m <;> decide
    · have e1 : ("/" == p) = false := beq_eq_false_iff_ne.mpr (Ne.symm hp)
      have e2 : ("/klassement" == p) = false := beq_eq_false_iff_ne.mpr (Ne.symm hq)
      simp [routeCount, mainRoutes, List.filter, e1, e2] at h

/-- C3 amended: the routing table registers each (method, path) pair at most
once — exactly one handler for GET "/" (the view function `index`, a
template render) and exactly one for GET "/klassement"; no conflicting
second registration exists. -/
theorem c3_amended_unique_routes :
    routeCount (mainRoutes Unit) Method.GET "/" = 1 ∧
    routeCount (mainRoutes Unit) Method.GET "/klassement" = 1 ∧
    (mainRoutes Unit).map Route.path = ["/", "/klassement"] ∧
    (mainRoutes Unit).find? (fun r => r.path == "/") =
      some ⟨[Method.GET], "/", "index", index⟩ :=
  ⟨by decide, by decide, by decide, rfl⟩

/-- C4: for every request whose path is neither "/" nor "/klassement", the
router has no matching handler and the response is the server's not-found
response, with the data-store state untouched. -/
theorem c4_unmatched_path_not_found {DB : Type} (render : Renderer)
    (req : Request) (db : DB)
    (h1 : req.path ≠ "/") (h2 : req.path ≠ "/klassement") :
    dispatch (mainRoutes DB) render req db = (Response.notFound, db) := by
  obtain ⟨m, p, q, hd, b⟩ := req
  simp only at h1 h2
  have e1 : ("/" == p) = false := beq_eq_false_iff_ne.mpr (Ne.symm h1)
  have e2 : ("/klassement" == p) = false := beq_eq_false_iff_ne.mpr (Ne.symm h2)
  simp [dispatch, mainRoutes, List.find?, e1, e2]

/-- C4 witness: a concrete request for an unregistered path. -/
theorem c4_unmatched_path_not_found_witness :
    dispatch (mainRoutes Unit) (fun _ _ => Except.ok "")
      ⟨Method.GET, "/admin", "", [], ""⟩ () = (Response.notFound, ()) :=
  c4_unmatched_path_not_found (fun _ _ => Except.ok "")
    ⟨Method.GET, "/admin", "", [], ""⟩ () (by decide) (by decide)

/-- C5: for every request to "/" or "/klassement" whose method is not GET,
the response is the server's method-not-allowed response; the handler is not
invoked (the result is the same for every renderer and the data-store state
is untouched). -/
theorem c5_wrong_method_not_allowed {DB : Type} (render : Renderer)
    (req : Request) (db : DB)
    (hp : req.path = "/" ∨ req.path = "/klassement")
    (hm : req.method ≠ Method.GET) :
    dispatch (mainRoutes DB) render req db = (Response.methodNotAllowed, db) := by
  obtain ⟨m, p, q, hd, b⟩ := req
  simp only at hp hm
  rcases hp with hp | hp <;> subst hp <;>
    simp [dispatch, mainRoutes, List.find?, hm]

/-- C5 witness: a concrete POST request to "/". -/
theorem c5_wrong_method_not_allowed_witness :
    dispatch (mainRoutes Unit) (fun _ _ => Except.ok "")
      ⟨Method.POST, "/", "", [], ""⟩ () = (Response.methodNotAllowed, ()) :=
  c5_wrong_method_not_allowed (fun _ _ => Except.ok "")
    ⟨Method.POST, "/", "", [], ""⟩ () (Or.inl rfl) (by decide)

/-- C6: for every GET request to "/" or "/klassement", if the Template
Renderer fails for the corresponding template, the handler performs no local
recovery: exactly that failure propagates unchanged to the hosting server's
error response, and the data-store state is untouched. -/
theorem c6_template_failure_propagates {DB : Type} (render : Renderer)
    (req : Request) (db : DB) (e : TemplateError)
    (hm : req.method = Method.GET)
    (h : (req.path = "/" ∧ render "index.html" [] = Except.error e) ∨
      (req.path = "/klassement" ∧
        render "klassement.html" [] = Except.error e)) :
    dispatch (mainRoutes DB) render req db = (Response.serverError e, db) := by
  obtain ⟨m, p, q, hd, b⟩ := req
  simp only at hm h
  subst hm
  rcases h with ⟨hp, hr⟩ | ⟨hp, hr⟩ <;> subst hp <;>
    simp [dispatch, mainRoutes, index, klassement, List.find?, hr]

/-- C6 witness: a renderer failing with TemplateNotFound on every template,
and a concrete GET request to "/". -/
theorem c6_template_failure_propagates_witness :
    dispatch (mainRoutes Unit)
      (fun n _ => Except.error (TemplateError.templateNotFound n))
      ⟨Method.GET, "/", "", [], ""⟩ () =
      (Response.serverError (TemplateError.templateNotFound "index.html"), ()) :=
  c6_template_failure_propagates
    (fun n _ => Except.error (TemplateError.templateNotFound n))
    ⟨Method.GET, "/", "", [], ""⟩ ()
    (TemplateError.templateNotFound "index.html") rfl (Or.inl ⟨rfl, rfl⟩)

/-- Any dispatch over routes whose handlers leave the data-store state
unchanged leaves the data-store state unchanged. -/
theorem dispatch_db_eq {DB : Type} (routes : List (Route DB))
    (render : Renderer) (req : Request) (db : DB)
    (h : ∀ r ∈ routes, (r.handler render db).2 = db) :
    (dispatch routes render req db).2 = db := by
  unfold dispatch
  cases hfind : routes.find? (fun r => r.path == req.path) with
  | none => rfl
  | some r =>
    have hr := h r (List.mem_of_find?_eq_some hfind)
    dsimp only
    split_ifs with hm
    · cases hh : r.handler render db with
      | mk res db' => cases res <;> simp_all
    · rfl

/-- C7: the fragment references the data-store surface (`db` imported from
`app.models`, with entity types User and Listing) but invokes no operation
on it: every execution of the handlers `index` and `klassement` — and hence
every dispatched request — leaves the data-store state unchanged. -/
theorem c7_data_store_unchanged {DB : Type} (render : Renderer) (db : DB) :
    (∀ req : Request, (dispatch (mainRoutes DB) render req db).2 = db) ∧
    (index render db).2 = db ∧ (klassement render db).2 = db := by
  refine ⟨fun req => dispatch_db_eq _ render req db ?_, rfl, rfl⟩
  intro r hr
  simp only [mainRoutes, List.mem_cons, List.mem_singleton] at hr
  rcases hr with rfl | rfl | h
  · rfl
  · rfl
  · exact absurd h (List.not_mem_nil r)

/-- C8: repeated identical GET requests to a registered path produce
byte-identical responses given the same Template Renderer behavior: running
the same request again on the state left by the first run returns the same
response (the handlers are deterministic and mutate no hidden state). -/
theorem c8_repeated_requests_identical {DB : Type} (render : Renderer)
    (req : Request) (db : DB)
    (hm : req.method = Method.GET)
    (hp : req.path = "/" ∨ req.path = "/klassement") :
    (dispatch (mainRoutes DB) render req
        ((dispatch (mainRoutes DB) render req db).2)).1 =
      (dispatch (mainRoutes DB) render req db).1 := by
  obtain ⟨m, p, q, hd, b⟩ := req
  simp only at hm hp
  subst hm
  rcases hp with hp | hp <;> subst hp
  · cases hr : render "index.html" [] <;>
      simp [dispatch, mainRoutes, index, List.find?, hr]
  · cases hr : render "klassement.html" [] <;>
      simp [dispatch, mainRoutes, klassement, List.find?, hr]

/-- C8 witness: two identical GET requests to "/" under a concrete renderer
yield the same response. -/
theorem c8_repeated_requests_identical_witness :
    (dispatch (mainRoutes Unit) (fun _ _ => Except.ok "<html/>")
        ⟨Method.GET, "/", "", [], ""⟩
        ((dispatch (mainRoutes Unit) (fun _ _ => Except.ok "<html/>")
          ⟨Method.GET, "/", "", [], ""⟩ ()).2)).1 =
      (dispatch (mainRoutes Unit) (fun _ _ => Except.ok "<html/>")
        ⟨Method.GET, "/", "", [], ""⟩ ()).1 :=
  c8_repeated_requests_identical (fun _ _ => Except.ok "<html/>")
    ⟨Method.GET, "/", "", [], ""⟩ () rfl (Or.inl rfl)

/-- C10: the response depends only on the matched path and the renderer's
output for the fixed template name: any two GET requests to the same
registered path that differ in query string, headers, or body receive equal
responses (the handlers read no request data). -/
theorem c10_response_ignores_request_data {DB : Type} (render : Renderer)
    (req1 req2 : Request) (db : DB)
    (hm1 : req1.method = Method.GET) (hm2 : req2.method = Method.GET)
    (hp : req1.path = req2.path)
    (hreg : req1.path = "/" ∨ req1.path = "/klassement") :
    (dispatch (mainRoutes DB) render req1 db).1 =
      (dispatch (mainRoutes DB) render req2 db).1 := by
  obtain ⟨m1, p1, q1, hd1, b1⟩ := req1
  obtain ⟨m2, p2, q2, hd2, b2⟩ := req2
  simp only at hm1 hm2 hp hreg
  subst hm1 hm2 hp
  rfl

/-- C10 witness: two GET requests to "/" with different query strings,
headers and bodies receive equal responses. -/
theorem c10_response_ignores_request_data_witness :
    (dispatch (mainRoutes Unit) (fun _ _ => Except.ok "<html/>")
        ⟨Method.GET, "/", "a=1", [("X", "1")], "b1"⟩ ()).1 =
      (dispatch (mainRoutes Unit) (fun _ _ => Except.ok "<html/>")
        ⟨Method.GET, "/", "c=2", [("Y", "2")], "b2"⟩ ()).1 :=
  c10_response_ignores_request_data (fun _ _ => Except.ok "<html/>")
    ⟨Method.GET, "/", "a=1", [("X", "1")], "b1"⟩
    ⟨Method.GET, "/", "c=2", [("Y", "2")], "b2"⟩ () rfl rfl rfl (Or.inl rfl)

/-- C9: both handlers call the Template Renderer with a fixed template name
only ("index.html" for `index`, "klassement.html" for `klassement`) and an
empty context mapping, and return the renderer's output unmodified, with no
post-processing and no change to the data-store state. -/
theorem c9_handlers_fixed_name_empty_context {DB : Type} (render : Renderer)
    (db : DB) :
    index render db = (render "index.html" [], db) ∧
    klassement render db = (render "klassement.html" [], db) :=
  ⟨rfl, rfl⟩
